import Mathlib

/-!
Verification of `src/terraform/scan-processor.py` (ECR scan processor Lambda).

The Python handler is embedded shallowly:
* the inbound event's `detail` object becomes the `Detail` structure
  (absent keys are `none`, mirroring `dict.get` returning `None`);
* the `ecr_client.describe_image_scan_findings` call, the `SNS_TOPIC_ARN` /
  `CLUSTER_NAME` environment variables, `datetime.utcnow()` and the outcome of
  `sns_client.publish` are inputs of an `Env` record (the external world);
* side effects (the findings fetch, `send_alert` / `send_error_alert`
  invocations, SNS publish attempts) are recorded in a `Trace`;
* a Python exception escaping the handler is `HandlerOut.raised`, the early
  `return` on an incomplete scan is `HandlerOut.earlyReturn`, and the success
  dictionary is `HandlerOut.success`;
* Python string comparison (used by `sorted(..., key=...)`) is code-point
  lexicographic order, modelled by `lexLe` on the character list.
-/

/-- Python code-point lexicographic `<=` on strings, acting on character
lists: exactly the order `sorted` uses for string keys. -/
def lexLe : List Char → List Char → Bool
  | [], _ => true
  | _ :: _, [] => false
  | a :: as, b :: bs =>
    if a.toNat < b.toNat then true
    else if b.toNat < a.toNat then false
    else lexLe as bs

/-- Python `s[:n]` on a string: the first `n` characters. -/
def truncateChars (s : String) (n : Nat) : String := String.mk (s.data.take n)

/-- Python `finding_counts.get(k, 0)`: dictionary lookup with default 0
(source lines 43-46; the dictionary is modelled as an association list). -/
def countsGet (finding_counts : List (String × Nat)) (k : String) : Nat :=
  (finding_counts.lookup k).getD 0

/-- Risk score, source line 49:
`(critical * 10) + (high * 5) + (medium * 2) + (low * 1)`. -/
def risk_score (finding_counts : List (String × Nat)) : Nat :=
  countsGet finding_counts "CRITICAL" * 10 + countsGet finding_counts "HIGH" * 5 +
    countsGet finding_counts "MEDIUM" * 2 + countsGet finding_counts "LOW" * 1

/-- Alert level cascade, source lines 52-58: starts at INFO, then
`critical > 0` wins, else `high > 5`, else `high > 0`. -/
def alert_level (finding_counts : List (String × Nat)) : String :=
  if countsGet finding_counts "CRITICAL" > 0 then "CRITICAL"
  else if countsGet finding_counts "HIGH" > 5 then "HIGH"
  else if countsGet finding_counts "HIGH" > 0 then "MEDIUM"
  else "INFO"

/-- One raw finding from the scan results. Each field models the
corresponding dictionary key, `none` when the key is absent;
`packageName` models `finding.get('attributes', {}).get('PACKAGE_NAME')`. -/
structure Finding where
  name : Option String
  severity : Option String
  description : Option String
  uri : Option String
  packageName : Option String
deriving DecidableEq, Repr

/-- The `vuln_info` dictionary built in the loop of source lines 62-70. -/
structure VulnInfo where
  name : String
  severity : String
  description : String
  uri : String
  package : String
deriving DecidableEq, Repr

/-- Source lines 63-69: field extraction with defaults, and the `[:200]`
truncation of the description. -/
def vuln_info (finding : Finding) : VulnInfo :=
  { name := finding.name.getD "Unknown"
  , severity := finding.severity.getD "UNKNOWN"
  , description := truncateChars (finding.description.getD "No description available") 200
  , uri := finding.uri.getD ""
  , package := finding.packageName.getD "Unknown" }

/-- Sort key of source line 62: `x.get('severity', 'LOW')`. -/
def sort_key (f : Finding) : String := f.severity.getD "LOW"

/-- Source line 62: `sorted(findings, key=..., reverse=True)`. Python sort is
stable; with `reverse=True` element `a` may stay before `b` exactly when
`key b <= key a`, which is the comparator handed to the stable merge sort. -/
def sorted_findings (findings : List Finding) : List Finding :=
  findings.mergeSort (fun a b => lexLe (sort_key b).data (sort_key a).data)

/-- Source lines 61-70: take the first 5 sorted findings and build their
`vuln_info` records. -/
def top_vulnerabilities (findings : List Finding) : List VulnInfo :=
  ((sorted_findings findings).take 5).map vuln_info

/-- Python `str` rendering of an optional string in an f-string:
`None` prints as "None". -/
def optStr : Option String → String
  | none => "None"
  | some s => s

/-- Source lines 102-154, `create_alert_message`. The `CLUSTER_NAME`
environment variable and the `utcnow` timestamp are passed explicitly. -/
def create_alert_message (cluster_name_cfg : Option String) (timestamp : String)
    (repo_name : Option String) (tag : String) (counts : List (String × Nat))
    (riskScore : Nat) (alert_level_arg : String) (top_vulns : List VulnInfo) : String :=
  let cluster_name := cluster_name_cfg.getD "Unknown"
  let message :=
    "\n🚨 ECR Security Scan Alert - " ++ alert_level_arg ++
    "\n\nCluster: " ++ cluster_name ++
    "\nRepository: " ++ optStr repo_name ++
    "\nImage Tag: " ++ tag ++
    "\nScan Time: " ++ timestamp ++
    "\nRisk Score: " ++ toString riskScore ++
    "\n\n📊 Vulnerability Summary:" ++
    "\n• Critical: " ++ toString (countsGet counts "CRITICAL") ++
    "\n• High: " ++ toString (countsGet counts "HIGH") ++ "  " ++
    "\n• Medium: " ++ toString (countsGet counts "MEDIUM") ++
    "\n• Low: " ++ toString (countsGet counts "LOW") ++
    "\n\n🔍 Top Vulnerabilities:\n"
  let message := message ++ String.join ((top_vulns.enumFrom 1).map (fun p =>
    "\n" ++ toString p.1 ++ ". " ++ p.2.name ++ " (" ++ p.2.severity ++ ")" ++
    "\n   Package: " ++ p.2.package ++
    "\n   Description: " ++ p.2.description ++
    "\n   URI: " ++ p.2.uri ++ "\n"))
  let message := message ++ "\n🎯 Recommended Actions:\n"
  let message := message ++
    (if countsGet counts "CRITICAL" > 0 then
      "• IMMEDIATE: Block deployment of this image\n" ++ "• Update base image and rebuild\n"
    else "")
  let message := message ++
    (if countsGet counts "HIGH" > 0 then
      "• Update vulnerable packages\n" ++ "• Review and patch within 24 hours\n"
    else "")
  let message := message ++ "• Run security testing in staging environment\n" ++
    "• Consider using distroless or minimal base images\n"
  message ++ "\n📈 Security Dashboard: https://console.aws.amazon.com/ecr/repositories/" ++
    optStr repo_name ++ "\n"

/-- One `sns_client.publish(...)` attempt, recorded with its arguments. -/
structure SnsPublish where
  topicArn : String
  subject : String
  message : String
  messageAttributes : List (String × String)
deriving DecidableEq, Repr

/-- Source lines 156-185, `send_alert`. `publishOutcome` is whether the SNS
publish call would succeed or raise; the result's first component is what the
function itself does (`Except.error` would model an escaping exception, and
the `try/except` of lines 167-185 swallows the publish failure). The second
component records publish attempts. -/
def send_alert (sns_topic_arn cluster_name_cfg : Option String)
    (publishOutcome : Except String Unit) (message alert_level_arg : String) :
    Except String Unit × List SnsPublish :=
  match sns_topic_arn with
  | none => (Except.ok (), [])
  | some topic_arn =>
    let subject := "[" ++ alert_level_arg ++ "] ECR Security Alert - " ++
      cluster_name_cfg.getD "EKS"
    let pub : SnsPublish :=
      { topicArn := topic_arn, subject := subject, message := message
      , messageAttributes := [("AlertLevel", alert_level_arg), ("Source", "ECR-Scanner")] }
    match publishOutcome with
    | Except.ok _ => (Except.ok (), [pub])
    | Except.error _ => (Except.ok (), [pub])

/-- Source lines 187-215, `send_error_alert`: no message attributes, and its
own `try/except` swallows the publish failure. -/
def send_error_alert (sns_topic_arn cluster_name_cfg : Option String) (timestamp : String)
    (publishOutcome : Except String Unit) (error_message : String) :
    Except String Unit × List SnsPublish :=
  match sns_topic_arn with
  | none => (Except.ok (), [])
  | some topic_arn =>
    let cluster_name := cluster_name_cfg.getD "Unknown"
    let message :=
      "\n❌ ECR Scan Processor Error\n\nCluster: " ++ cluster_name ++
      "\nTime: " ++ timestamp ++
      "\nError: " ++ error_message ++
      "\n\nPlease check CloudWatch logs for detailed information.\n"
    let pub : SnsPublish :=
      { topicArn := topic_arn
      , subject := "[ERROR] ECR Scan Processor - " ++ cluster_name
      , message := message, messageAttributes := [] }
    match publishOutcome with
    | Except.ok _ => (Except.ok (), [pub])
    | Except.error _ => (Except.ok (), [pub])

/-- The `event['detail']` object, source lines 23-26. -/
structure Detail where
  repositoryName : Option String
  imageTags : Option (List String)
  scanStatus : Option String
deriving DecidableEq, Repr

/-- The `imageScanFindings` part of the `describe_image_scan_findings`
response, source lines 38-40. -/
structure ScanFindings where
  findings : List Finding
  findingCounts : List (String × Nat)
deriving DecidableEq, Repr

/-- The external world of one invocation: the fetch outcome, both
environment variables, the `utcnow` timestamp and the publish outcome. -/
structure Env where
  fetchResult : Except String ScanFindings
  snsTopicArn : Option String
  clusterName : Option String
  timestamp : String
  publishOutcome : Except String Unit

/-- The success dictionary of source lines 86-95 (its `body` fields). -/
structure HandlerResult where
  statusCode : Nat
  repository : Option String
  tag : String
  riskScore : Nat
  alertLevel : String
deriving DecidableEq, Repr

/-- How the handler terminates: early `return None`, the success dictionary,
or a re-raised exception. -/
inductive HandlerOut where
  | earlyReturn : HandlerOut
  | success : HandlerResult → HandlerOut
  | raised : String → HandlerOut
deriving DecidableEq, Repr

/-- Side effects of one invocation: number of findings-fetch calls,
`send_alert` invocations (message, level), `send_error_alert` invocations
(error message), and SNS publish attempts. -/
structure Trace where
  fetchCalls : Nat
  alertCalls : List (String × String)
  errorAlertCalls : List String
  publishes : List SnsPublish
deriving DecidableEq, Repr

/-- The all-zero trace: no fetch, no alerts, no publishes. -/
def emptyTrace : Trace :=
  { fetchCalls := 0, alertCalls := [], errorAlertCalls := [], publishes := [] }

/-- Python truthiness of `detail.get('image-tags')`: `None` and `[]` are
falsy, a non-empty list is truthy. -/
def truthyTags : Option (List String) → Bool
  | none => false
  | some l => !l.isEmpty

/-- Source line 25:
`detail.get('image-tags', ['latest'])[0] if detail.get('image-tags') else 'latest'`.
`none` would model an IndexError from the `[0]` access. -/
def image_tag_of (image_tags : Option (List String)) : Option String :=
  if truthyTags image_tags then (image_tags.getD ["latest"]).head?
  else some "latest"

/-- The Lambda `handler`, source lines 15-100, with its effect trace. -/
def handler (env : Env) (detail : Detail) : HandlerOut × Trace :=
  match image_tag_of detail.imageTags with
  | none =>
    (HandlerOut.raised "IndexError: list index out of range",
      { fetchCalls := 0, alertCalls := []
      , errorAlertCalls := ["IndexError: list index out of range"]
      , publishes := (send_error_alert env.snsTopicArn env.clusterName env.timestamp
          env.publishOutcome "IndexError: list index out of range").2 })
  | some image_tag =>
    if detail.scanStatus ≠ some "COMPLETE" then
      (HandlerOut.earlyReturn, emptyTrace)
    else
      match env.fetchResult with
      | Except.error e =>
        (HandlerOut.raised e,
          { fetchCalls := 1, alertCalls := [], errorAlertCalls := [e]
          , publishes := (send_error_alert env.snsTopicArn env.clusterName env.timestamp
              env.publishOutcome e).2 })
      | Except.ok response =>
        let finding_counts := response.findingCounts
        let riskScore := risk_score finding_counts
        let alertLevel := alert_level finding_counts
        let top_vulns := top_vulnerabilities response.findings
        let alert_message := create_alert_message env.clusterName env.timestamp
          detail.repositoryName image_tag finding_counts riskScore alertLevel top_vulns
        if ["CRITICAL", "HIGH", "MEDIUM"].contains alertLevel then
          (HandlerOut.success
             { statusCode := 200, repository := detail.repositoryName, tag := image_tag
             , riskScore := riskScore, alertLevel := alertLevel },
           { fetchCalls := 1, alertCalls := [(alert_message, alertLevel)]
           , errorAlertCalls := []
           , publishes := (send_alert env.snsTopicArn env.clusterName env.publishOutcome
               alert_message alertLevel).2 })
        else
          (HandlerOut.success
             { statusCode := 200, repository := detail.repositoryName, tag := image_tag
             , riskScore := riskScore, alertLevel := alertLevel },
           { fetchCalls := 1, alertCalls := [], errorAlertCalls := [], publishes := [] })

/-- Fixture: an environment whose fetch succeeds with empty findings. -/
def envEmptyOk : Env :=
  { fetchResult := Except.ok { findings := [], findingCounts := [] }
  , snsTopicArn := some "arn:aws:sns:us-east-1:1:topic", clusterName := some "eks"
  , timestamp := "2026-01-01 00:00:00 UTC", publishOutcome := Except.ok () }

/-- Fixture: the response of the spec scenario with five medium and a
hundred low findings. -/
def respMediumLow : ScanFindings :=
  { findings := [], findingCounts := [("MEDIUM", 5), ("LOW", 100)] }

/-- Fixture: an environment whose fetch returns `respMediumLow`. -/
def envMediumLow : Env :=
  { fetchResult := Except.ok respMediumLow
  , snsTopicArn := some "arn:aws:sns:us-east-1:1:topic", clusterName := some "eks"
  , timestamp := "2026-01-01 00:00:00 UTC", publishOutcome := Except.ok () }

/-- Fixture: an environment whose fetch raises. -/
def envBoom : Env :=
  { fetchResult := Except.error "boom"
  , snsTopicArn := some "arn:aws:sns:us-east-1:1:topic", clusterName := some "eks"
  , timestamp := "2026-01-01 00:00:00 UTC", publishOutcome := Except.error "publish down" }

/-- Fixture: a completed-scan event detail. -/
def detailComplete : Detail :=
  { repositoryName := some "repo", imageTags := some ["v1"], scanStatus := some "COMPLETE" }

/-- Fixture: an in-progress-scan event detail. -/
def detailInProgress : Detail :=
  { repositoryName := some "repo", imageTags := some ["v1"], scanStatus := some "IN_PROGRESS" }

/-- Fixture: a completed-scan event detail whose image-tags list is empty. -/
def detailEmptyTags : Detail :=
  { repositoryName := some "repo", imageTags := some [], scanStatus := some "COMPLETE" }

theorem lexLe_total : ∀ xs ys : List Char, (lexLe xs ys || lexLe ys xs) = true := by
  intro xs
  induction xs with
  | nil => intro ys; simp [lexLe]
  | cons a as ih =>
    intro ys
    cases ys with
    | nil => simp [lexLe]
    | cons b bs =>
      by_cases h1 : a.toNat < b.toNat
      · simp [lexLe, h1]
      · by_cases h2 : b.toNat < a.toNat
        · simp [lexLe, h1, h2]
        · simp [lexLe, h1, h2, ih bs]

theorem lexLe_trans : ∀ xs ys zs : List Char,
    lexLe xs ys = true → lexLe ys zs = true → lexLe xs zs = true := by
  intro xs
  induction xs with
  | nil => intro ys zs _ _; simp [lexLe]
  | cons a as ih =>
    intro ys zs h1 h2
    cases ys with
    | nil => simp [lexLe] at h1
    | cons b bs =>
      cases zs with
      | nil => simp [lexLe] at h2
      | cons c cs =>
        simp only [lexLe] at h1 h2 ⊢
        by_cases hab : a.toNat < b.toNat
        · by_cases hbc : b.toNat < c.toNat
          · have hac : a.toNat < c.toNat := Nat.lt_trans hab hbc
            simp [hac]
          · by_cases hcb : c.toNat < b.toNat
            · simp [hbc, hcb] at h2
            · have hbceq : b.toNat = c.toNat :=
                Nat.le_antisymm (Nat.le_of_not_lt hcb) (Nat.le_of_not_lt hbc)
              have hac : a.toNat < c.toNat := hbceq ▸ hab
              simp [hac]
        · by_cases hba : b.toNat < a.toNat
          · simp [hab, hba] at h1
          · have habeq : a.toNat = b.toNat :=
              Nat.le_antisymm (Nat.le_of_not_lt hba) (Nat.le_of_not_lt hab)
            by_cases hbc : b.toNat < c.toNat
            · have hac : a.toNat < c.toNat := habeq ▸ hbc
              simp [hac]
            · by_cases hcb : c.toNat < b.toNat
              · simp [hbc, hcb] at h2
              · simp [hab, hba] at h1
                simp [hbc, hcb] at h2
                have hac : ¬ a.toNat < c.toNat := by omega
                have hca : ¬ c.toNat < a.toNat := by omega
                simp [hac, hca]
                exact ih bs cs h1 h2

theorem image_tag_of_isSome (tags : Option (List String)) :
    (image_tag_of tags).isSome = true := by
  cases tags with
  | none => rfl
  | some l =>
    cases l with
    | nil => rfl
    | cons a as => rfl

/-- C1: the alert tier is computed by the ordered cascade with first match
winning: CRITICAL count positive gives CRITICAL; else HIGH count above 5
gives HIGH; else HIGH count positive gives MEDIUM; else INFO. -/
theorem alert_level_cascade (finding_counts : List (String × Nat)) :
    (0 < countsGet finding_counts "CRITICAL" → alert_level finding_counts = "CRITICAL") ∧
    (countsGet finding_counts "CRITICAL" = 0 → 5 < countsGet finding_counts "HIGH" →
      alert_level finding_counts = "HIGH") ∧
    (countsGet finding_counts "CRITICAL" = 0 → 0 < countsGet finding_counts "HIGH" →
      countsGet finding_counts "HIGH" ≤ 5 → alert_level finding_counts = "MEDIUM") ∧
    (countsGet finding_counts "CRITICAL" = 0 → countsGet finding_counts "HIGH" = 0 →
      alert_level finding_counts = "INFO") := by
  unfold alert_level
  split_ifs with h1 h2 h3 <;>
    refine ⟨?_, ?_, ?_, ?_⟩ <;> intros <;> first | rfl | omega

/-- Witness for C1 at a concrete mapping. -/
theorem alert_level_cascade_witness : alert_level [("CRITICAL", 1), ("LOW", 9)] = "CRITICAL" :=
  (alert_level_cascade [("CRITICAL", 1), ("LOW", 9)]).1 (by decide)

/-- C2: the risk score is exactly 10·c + 5·h + 2·m + 1·l where each count is
read from the mapping with a missing key defaulting to 0. -/
theorem risk_score_formula (finding_counts : List (String × Nat)) :
    risk_score finding_counts =
      10 * countsGet finding_counts "CRITICAL" + 5 * countsGet finding_counts "HIGH" +
        2 * countsGet finding_counts "MEDIUM" + 1 * countsGet finding_counts "LOW" ∧
    (∀ k : String, finding_counts.lookup k = none → countsGet finding_counts k = 0) := by
  constructor
  · unfold risk_score; ring
  · intro k hk; unfold countsGet; rw [hk]; rfl

/-- Witness for C2: a missing CRITICAL key reads as 0. -/
theorem risk_score_formula_witness : countsGet [("HIGH", 2)] "CRITICAL" = 0 :=
  (risk_score_formula [("HIGH", 2)]).2 "CRITICAL" (by decide)

/-- C7: two finding-count mappings that agree on CRITICAL and HIGH get the
same alert tier, whatever their MEDIUM and LOW counts are. -/
theorem alert_level_ignores_medium_low (fc1 fc2 : List (String × Nat))
    (hc : countsGet fc1 "CRITICAL" = countsGet fc2 "CRITICAL")
    (hh : countsGet fc1 "HIGH" = countsGet fc2 "HIGH") :
    alert_level fc1 = alert_level fc2 := by
  unfold alert_level
  rw [hc, hh]

/-- Witness for C7: arbitrarily many medium and low findings tier like the
empty mapping. -/
theorem alert_level_ignores_medium_low_witness :
    alert_level [("MEDIUM", 1000), ("LOW", 7)] = alert_level [] :=
  alert_level_ignores_medium_low [("MEDIUM", 1000), ("LOW", 7)] [] (by decide) (by decide)

/-- C3: on an event whose scan status is not COMPLETE the handler returns
early without error and performs no side effects: no fetch, no alert of any
kind, no publish. -/
theorem handler_incomplete_no_side_effects (env : Env) (detail : Detail)
    (h : detail.scanStatus ≠ some "COMPLETE") :
    handler env detail = (HandlerOut.earlyReturn, emptyTrace) := by
  obtain ⟨t, ht⟩ := Option.isSome_iff_exists.mp (image_tag_of_isSome detail.imageTags)
  simp [handler, ht, h]

/-- Witness for C3: an IN_PROGRESS scan is a silent no-op. -/
theorem handler_incomplete_no_side_effects_witness :
    handler envEmptyOk detailInProgress = (HandlerOut.earlyReturn, emptyTrace) :=
  handler_incomplete_no_side_effects envEmptyOk detailInProgress (by decide)

/-- C4: on the success path the Notifier is invoked with the rendered report
exactly when the alert tier is MEDIUM, HIGH or CRITICAL; for tier INFO no
alert is sent and nothing is published, whatever the risk score. -/
theorem handler_notify_iff_tier (env : Env) (detail : Detail) (response : ScanFindings)
    (hs : detail.scanStatus = some "COMPLETE") (hf : env.fetchResult = Except.ok response) :
    ((handler env detail).2.alertCalls ≠ [] ↔
      alert_level response.findingCounts ∈ (["CRITICAL", "HIGH", "MEDIUM"] : List String)) ∧
    (alert_level response.findingCounts ∈ (["CRITICAL", "HIGH", "MEDIUM"] : List String) →
      (handler env detail).2.alertCalls =
        [(create_alert_message env.clusterName env.timestamp detail.repositoryName
            ((image_tag_of detail.imageTags).getD "latest") response.findingCounts
            (risk_score response.findingCounts) (alert_level response.findingCounts)
            (top_vulnerabilities response.findings),
          alert_level response.findingCounts)]) ∧
    (alert_level response.findingCounts = "INFO" →
      (handler env detail).2.alertCalls = [] ∧ (handler env detail).2.publishes = []) := by
  obtain ⟨t, ht⟩ := Option.isSome_iff_exists.mp (image_tag_of_isSome detail.imageTags)
  by_cases hcon :
      alert_level response.findingCounts ∈ (["CRITICAL", "HIGH", "MEDIUM"] : List String)
  · have hcon' : alert_level response.findingCounts = "CRITICAL" ∨
        alert_level response.findingCounts = "HIGH" ∨
        alert_level response.findingCounts = "MEDIUM" := by
      simpa using hcon
    have hinfo_ne : alert_level response.findingCounts ≠ "INFO" := by
      rcases hcon' with h | h | h <;> simp [h]
    refine ⟨?_, fun _ => ?_, fun hinfo => absurd hinfo hinfo_ne⟩ <;>
      rcases hcon' with h | h | h <;> simp [handler, ht, hs, hf, h]
  · have hcon' : ¬(alert_level response.findingCounts = "CRITICAL" ∨
        alert_level response.findingCounts = "HIGH" ∨
        alert_level response.findingCounts = "MEDIUM") := by
      simpa using hcon
    refine ⟨?_, fun hcon2 => absurd hcon2 hcon, fun _ => ?_⟩ <;>
      simp [handler, ht, hs, hf, hcon']

/-- Witness for C4: the medium/low-only scenario tiers INFO and sends
nothing. -/
theorem handler_notify_iff_tier_witness :
    (handler envMediumLow detailComplete).2.alertCalls = [] := by
  have h := handler_notify_iff_tier envMediumLow detailComplete respMediumLow rfl rfl
  exact (h.2.2 (by decide)).1

/-- C5: a fetch failure is caught once at the top level, triggers exactly one
best-effort error notification, no success alert, and is re-raised unchanged;
the publish outcome of the error notification does not change the result. -/
theorem handler_fetch_error_reraises (env : Env) (detail : Detail) (e : String)
    (hs : detail.scanStatus = some "COMPLETE") (hf : env.fetchResult = Except.error e) :
    (handler env detail).1 = HandlerOut.raised e ∧
    (handler env detail).2.errorAlertCalls = [e] ∧
    (handler env detail).2.alertCalls = [] ∧
    (handler env detail).2.fetchCalls = 1 ∧
    ∀ pub : Except String Unit,
      (handler { env with publishOutcome := pub } detail).1 = HandlerOut.raised e := by
  obtain ⟨t, ht⟩ := Option.isSome_iff_exists.mp (image_tag_of_isSome detail.imageTags)
  refine ⟨?_, ?_, ?_, ?_, ?_⟩
  · simp [handler, ht, hs, hf]
  · simp [handler, ht, hs, hf]
  · simp [handler, ht, hs, hf]
  · simp [handler, ht, hs, hf]
  · intro pub
    simp [handler, ht, hs, hf]

/-- Witness for C5: a fetch raising "boom" re-raises "boom", also with a
failing publish outcome in the environment. -/
theorem handler_fetch_error_reraises_witness :
    (handler envBoom detailComplete).1 = HandlerOut.raised "boom" :=
  (handler_fetch_error_reraises envBoom detailComplete "boom" rfl rfl).1

/-- C6: the top-findings list is the first 5 of the findings sorted
descending by code-point lexicographic order of the severity label — a
permutation of the input that is pairwise descending — so it never exceeds
5 entries. -/
theorem top_vulnerabilities_lex_sorted (findings : List Finding) :
    top_vulnerabilities findings = ((sorted_findings findings).take 5).map vuln_info ∧
    (top_vulnerabilities findings).length ≤ 5 ∧
    (sorted_findings findings).Perm findings ∧
    List.Pairwise (fun a b => lexLe (sort_key b).data (sort_key a).data = true)
      (sorted_findings findings) := by
  refine ⟨rfl, ?_, List.mergeSort_perm findings _, ?_⟩
  · unfold top_vulnerabilities
    rw [List.length_map, List.length_take]
    omega
  · unfold sorted_findings
    exact @List.sorted_mergeSort Finding
      (fun a b => lexLe (sort_key b).data (sort_key a).data)
      (fun a b c h1 h2 => lexLe_trans _ _ _ h2 h1)
      (fun a b => lexLe_total _ _) findings

/-- C8: neither Notifier operation ever propagates an exception: with an
unset topic each returns, and a failing publish is swallowed on both the
success-report and error-report paths. -/
theorem notifier_never_raises (sns_topic_arn cluster_name_cfg : Option String)
    (timestamp message level err : String) (publishOutcome : Except String Unit) :
    (send_alert sns_topic_arn cluster_name_cfg publishOutcome message level).1 =
      Except.ok () ∧
    (send_error_alert sns_topic_arn cluster_name_cfg timestamp publishOutcome err).1 =
      Except.ok () := by
  constructor
  · unfold send_alert
    cases sns_topic_arn <;> cases publishOutcome <;> rfl
  · unfold send_error_alert
    cases sns_topic_arn <;> cases publishOutcome <;> rfl

/-- C9: each extracted finding record truncates the description to at most
200 characters and fills absent fields with the safe placeholders; the
extraction is total. -/
theorem vuln_info_truncation_defaults (finding : Finding) :
    (vuln_info finding).description.length ≤ 200 ∧
    (finding.name = none → (vuln_info finding).name = "Unknown") ∧
    (finding.packageName = none → (vuln_info finding).package = "Unknown") ∧
    (finding.severity = none → (vuln_info finding).severity = "UNKNOWN") ∧
    (finding.uri = none → (vuln_info finding).uri = "") := by
  refine ⟨?_, ?_, ?_, ?_, ?_⟩
  · show (truncateChars (finding.description.getD "No description available") 200).length ≤ 200
    unfold truncateChars
    show ((finding.description.getD "No description available").data.take 200).length ≤ 200
    rw [List.length_take]
    omega
  · intro h; simp [vuln_info, h]
  · intro h; simp [vuln_info, h]
  · intro h; simp [vuln_info, h]
  · intro h; simp [vuln_info, h]

/-- Witness for C9: the all-absent finding gets the placeholder name. -/
theorem vuln_info_truncation_defaults_witness :
    (vuln_info { name := none, severity := none, description := none, uri := none
               , packageName := none }).name = "Unknown" :=
  (vuln_info_truncation_defaults
    { name := none, severity := none, description := none, uri := none
    , packageName := none }).2.1 rfl

/-- C10: an event with a present but empty image-tags list uses "latest" as
the tag; the guarded first-element access never yields an out-of-bounds
error, and the handler behaves as if the tag list were ["latest"]. -/
theorem empty_image_tags_defaults_latest (env : Env) (detail : Detail)
    (h : detail.imageTags = some []) :
    image_tag_of detail.imageTags = some "latest" ∧
    (∀ tags : Option (List String), (image_tag_of tags).isSome = true) ∧
    handler env detail = handler env { detail with imageTags := some ["latest"] } := by
  refine ⟨by rw [h]; rfl, image_tag_of_isSome, ?_⟩
  simp [handler, h, image_tag_of, truthyTags]

/-- Witness for C10: the empty-tag-list detail resolves to "latest". -/
theorem empty_image_tags_defaults_latest_witness :
    image_tag_of detailEmptyTags.imageTags = some "latest" :=
  (empty_image_tags_defaults_latest envEmptyOk detailEmptyTags rfl).1
